import Mathlib

/-!
# go-libp2p-server: lifecycle of the relay node

A shallow embedding of `packages/peer/go-libp2p-server/main.go`.

The program is an orchestration of calls into the libp2p stack, the standard
library and the operating system.  Those collaborators are not part of the
program; they are the fields of `Env`, and every statement below quantifies
over them.  A run of `main` is its sequence of observable operations
(`Event`) together with the way the run ends (`Outcome`).
-/

namespace Libp2pServer

/-! ## Data model -/

/-- Peer identifier of a node (`peer.ID`), in its textual form. -/
abbrev PeerID := String

/-- Multiaddress (`multiaddr.Multiaddr`), in its textual form. -/
abbrev Multiaddr := String

/-- Go `error` value that is not nil; `msg` is what `Error()` returns. -/
structure GoError where
  msg : String
deriving DecidableEq, Repr

/-- Process signals of package `syscall` that the model distinguishes: the two
that `main` names, and two that a Go program catches and takes no action on
when nothing is registered for them. -/
inductive Signal where
  | SIGINT
  | SIGTERM
  | SIGUSR1
  | SIGWINCH
deriving DecidableEq, Repr

/-- Options of `libp2p.New` that `main.go` names, in code or in its comments. -/
inductive Libp2pOption where
  | Transport (constructor : String)
  | ListenAddrStrings (addrs : List String)
  | Muxer (name : String) (transport : String)
  | EnableRelay
  | DisableRelay
  | ForceReachabilityPublic
deriving DecidableEq, Repr

/-- Observable state of the node behind a non-nil `host.Host`: what `ID()` and
`Network().ListenAddresses()` return when asked now. -/
structure Node where
  id : PeerID
  listenAddrs : List Multiaddr
deriving DecidableEq, Repr

/-- The value `peer.AddrInfo` built by `main`. -/
structure AddrInfo where
  ID : PeerID
  Addrs : List Multiaddr
deriving DecidableEq, Repr

/-- A Go result pair `(host.Host, error)`; `none` is `nil` on either side. -/
abbrev HostResult := Option Node × Option GoError

/-- The collaborators of `main`, and the signals that reach the process once
`signal.Notify` has registered the channel.

* `libp2pNew` is `libp2p.New`;
* `relayNewRelay` is `relay.NewRelay`: its error (the relay handle is discarded
  by `main`) and the state of the node after the call;
* `addrInfoToP2pAddrs` is `peer.AddrInfoToP2pAddrs`: the addresses and the error
  it returns;
* `signals` are the incoming signals in order of arrival.  A signal whose
  default action ends the process before anything is relayed is outside the
  model. -/
structure Env where
  libp2pNew : List Libp2pOption → HostResult
  relayNewRelay : Node → Option GoError × Node
  addrInfoToP2pAddrs : AddrInfo → List Multiaddr × Option GoError
  signals : List Signal

/-- An operand of a `fmt.Println` call in `main`: a string or an address list. -/
inductive Operand where
  | str (s : String)
  | addrs (xs : List Multiaddr)
deriving DecidableEq, Repr

/-- Observable operations of a run, in program order. -/
inductive Event where
  | libp2pNew (opts : List Libp2pOption)
  | relayNewRelay (host : Node)
  | logPrintf (message : String)
  | hostID
  | listenAddresses
  | addrInfoToP2pAddrs (info : AddrInfo)
  | println (operands : List Operand)
  | signalNotify (capacity : Nat) (sigs : List Signal)
  | awaitSignal
  | signalReceived (sig : Signal)
  | hostClose
deriving DecidableEq, Repr

/-- How a run of `main` ends: it returns, it panics with a value, or it stays
blocked for ever in the channel receive. -/
inductive Outcome where
  | returned
  | panicked (value : GoError)
  | blocked
deriving DecidableEq, Repr

/-- Exit status of the process: 0 when `main` returns, 2 when the Go runtime
ends the program on an unrecovered panic, none while the run is blocked. -/
def Outcome.exitStatus : Outcome → Option Nat
  | .returned => some 0
  | .panicked _ => some 2
  | .blocked => none

/-- A run of `main`. -/
structure Run where
  trace : List Event
  outcome : Outcome
deriving DecidableEq, Repr

/-! ## Standard-library behaviour used by `main` -/

/-- Rendering of a `[]multiaddr.Multiaddr` operand by package `fmt`. -/
def fmtAddrs (addrs : List Multiaddr) : String :=
  "[" ++ " ".intercalate addrs ++ "]"

/-- Rendering of one operand by package `fmt`. -/
def Operand.render : Operand → String
  | .str s => s
  | .addrs xs => fmtAddrs xs

/-- `fmt.Println`: the text written to standard output, the operands separated
by a space and followed by a newline. -/
def Println (operands : List Operand) : String :=
  " ".intercalate (operands.map Operand.render) ++ "\n"

/-- `fmt.Errorf` with one `%v` verb at the end of the format, on an error. -/
def Errorf (format : String) (err : GoError) : GoError :=
  ⟨format ++ err.msg⟩

/-- Non-blocking send on a buffered channel, as package `os/signal` does it: the
value is dropped when the buffer is full. -/
def chanSend (capacity : Nat) (buf : List Signal) (s : Signal) : List Signal :=
  if buf.length < capacity then buf ++ [s] else buf

/-- `signal.Notify(ch, sigs...)`: the content of the channel buffer once the
incoming signals have been relayed; only the signals of `sigs` are relayed. -/
def signalNotify (capacity : Nat) (sigs : List Signal) (incoming : List Signal) :
    List Signal :=
  incoming.foldl (fun buf s => if s ∈ sigs then chanSend capacity buf s else buf) []

/-- Channel receive `<-ch`: the oldest buffered value, or none when nothing is
ever sent (the receive then blocks for ever). -/
def chanRecv (buf : List Signal) : Option Signal :=
  buf.head?

/-- The run-time error raised by a method call on a nil interface value. -/
def nilDereference : GoError :=
  ⟨"runtime error: invalid memory address or nil pointer dereference"⟩

/-! ## The program -/

/-- The option list that `createHost` passes to `libp2p.New` (lines 48-57). -/
def hostOptions : List Libp2pOption :=
  [ .Transport "webrtc.New",
    .ListenAddrStrings ["/ip4/0.0.0.0/udp/0/webrtc"],
    .Muxer "/mplex/6.7.0" "mplex.DefaultTransport",
    .EnableRelay ]

/-- Listen patterns requested by an option list. -/
def listenPatterns (opts : List Libp2pOption) : List String :=
  opts.flatMap fun o =>
    match o with
    | .ListenAddrStrings addrs => addrs
    | _ => []

/-- Stream multiplexers registered by an option list. -/
def muxerNames (opts : List Libp2pOption) : List String :=
  opts.filterMap fun o =>
    match o with
    | .Muxer name _ => some name
    | _ => none

/-- `createHost` (lines 45-63). -/
def createHost (libp2pNew : List Libp2pOption → HostResult) : HostResult :=
  match libp2pNew hostOptions with
  | (_, some err) => (none, some (Errorf "failed to create host: " err))
  | (h, none) => (h, none)

/-- The signals `main` registers with `signal.Notify` (line 41). -/
def registeredSignals : List Signal := [.SIGTERM, .SIGINT]

/-- Lines 31-42 of `main`: the address report and the signal wait, on the node
as it is after relay activation.  The deferred `host.Close()` runs when the
receive returns. -/
def reportAndWait (env : Env) (host : Node) : Run :=
  let remoteInfo : AddrInfo := { ID := host.id, Addrs := host.listenAddrs }
  let remoteAddrs := (env.addrInfoToP2pAddrs remoteInfo).1
  let started : List Event :=
    [ .hostID, .listenAddresses, .addrInfoToP2pAddrs remoteInfo,
      .println [.str "p2p addr: ", .addrs remoteAddrs],
      .println [.str "press Ctrl+C to quit"],
      .signalNotify 1 registeredSignals,
      .awaitSignal ]
  match chanRecv (signalNotify 1 registeredSignals env.signals) with
  | none => ⟨started, .blocked⟩
  | some s => ⟨started ++ [.signalReceived s, .hostClose], .returned⟩

/-- `main` (lines 18-43).

* An error of `createHost` is passed to `panic` before the `defer` statement is
  reached, so nothing is deferred on that path.
* `defer host.Close()` on a nil `host` (returned without error) evaluates a
  method of a nil interface value, which is a run-time panic at the `defer`
  statement itself.
* On a relay error `main` logs and returns; the deferred close runs on return.
* Otherwise the run continues with `reportAndWait`. -/
def main (env : Env) : Run :=
  match createHost env.libp2pNew with
  | (_, some err) => ⟨[.libp2pNew hostOptions], .panicked err⟩
  | (none, none) => ⟨[.libp2pNew hostOptions], .panicked nilDereference⟩
  | (some host, none) =>
    match env.relayNewRelay host with
    | (some err, _) =>
      ⟨[ .libp2pNew hostOptions, .relayNewRelay host,
         .logPrintf ("Failed to instantiate the relay: " ++ err.msg),
         .hostClose ], .returned⟩
    | (none, host1) =>
      let rest := reportAndWait env host1
      ⟨[.libp2pNew hostOptions, .relayNewRelay host] ++ rest.trace, rest.outcome⟩

/-! ## Vocabulary of the statements -/

/-- Has bootstrap produced a live node: `createHost` returned a host that is not
nil and no error. -/
def bootstrapped (env : Env) : Bool :=
  match createHost env.libp2pNew with
  | (some _, none) => true
  | _ => false

/-- Has the run passed relay activation: bootstrap produced a live node and
`relay.NewRelay` returned no error on it. -/
def relayActivated (env : Env) : Bool :=
  match createHost env.libp2pNew with
  | (some host, none) => (env.relayNewRelay host).1.isNone
  | _ => false

/-- The four components of the system overview, in dependency order. -/
inductive Stage where
  | bootstrap
  | activator
  | reporter
  | controller
deriving DecidableEq, Repr

/-- Position of a stage in the dependency order. -/
def Stage.rank : Stage → Nat
  | .bootstrap => 0
  | .activator => 1
  | .reporter => 2
  | .controller => 3

/-- The stage an operation belongs to.  Both prints are counted with the
reporter; the log line and the deferred close belong to no stage. -/
def stageOf : Event → Option Stage
  | .libp2pNew _ => some .bootstrap
  | .relayNewRelay _ => some .activator
  | .hostID => some .reporter
  | .listenAddresses => some .reporter
  | .addrInfoToP2pAddrs _ => some .reporter
  | .println _ => some .reporter
  | .signalNotify _ _ => some .controller
  | .awaitSignal => some .controller
  | .signalReceived _ => some .controller
  | .logPrintf _ => none
  | .hostClose => none

/-- Is the operation a `fmt.Println`. -/
def Event.isPrintln : Event → Bool
  | .println _ => true
  | _ => false

/-- Is the operation a `signal.Notify`. -/
def Event.isNotify : Event → Bool
  | .signalNotify _ _ => true
  | _ => false

/-- Is the operation a completed channel receive. -/
def Event.isReceived : Event → Bool
  | .signalReceived _ => true
  | _ => false

/-- Is the operation a `log.Printf`. -/
def Event.isLog : Event → Bool
  | .logPrintf _ => true
  | _ => false

/-- Is the operation a call of `libp2p.New`. -/
def Event.isNew : Event → Bool
  | .libp2pNew _ => true
  | _ => false

/-- The operations of a run that passes relay activation, up to and including
the entry into the channel receive; `host` is the node as bootstrap returned it
and `host1` the node after relay activation. -/
def runningTrace (env : Env) (host host1 : Node) : List Event :=
  [ .libp2pNew hostOptions, .relayNewRelay host,
    .hostID, .listenAddresses,
    .addrInfoToP2pAddrs { ID := host1.id, Addrs := host1.listenAddrs },
    .println [.str "p2p addr: ",
      .addrs (env.addrInfoToP2pAddrs { ID := host1.id, Addrs := host1.listenAddrs }).1],
    .println [.str "press Ctrl+C to quit"],
    .signalNotify 1 [.SIGTERM, .SIGINT],
    .awaitSignal ]

/-- The first incoming signal that `main` has registered for, if any. -/
def firstRegistered (incoming : List Signal) : Option Signal :=
  incoming.find? fun s => decide (s ∈ registeredSignals)

/-! ## Sample environments -/

/-- A node as bootstrap returns it, bound to one address. -/
def nodeA : Node :=
  { id := "12D3KooWA", listenAddrs := ["/ip4/0.0.0.0/udp/4001/webrtc"] }

/-- The same node after relay activation, with a second address. -/
def nodeB : Node :=
  { id := "12D3KooWA",
    listenAddrs := ["/ip4/0.0.0.0/udp/4001/webrtc", "/ip4/127.0.0.1/udp/4001/webrtc"] }

/-- Address composition of a sample stack: the listen address followed by the
identifier component. -/
def encapsulate (id : PeerID) (addr : Multiaddr) : Multiaddr :=
  addr ++ "/p2p/" ++ id

/-- A stack on which every call succeeds; a window-size change arrives, then an
interrupt, then a termination request. -/
def envOk : Env :=
  { libp2pNew := fun _ => (some nodeA, none)
    relayNewRelay := fun _ => (none, nodeB)
    addrInfoToP2pAddrs := fun info => (info.Addrs.map (encapsulate info.ID), none)
    signals := [.SIGWINCH, .SIGINT, .SIGTERM] }

/-- A stack whose node construction fails. -/
def envBootstrapFails : Env :=
  { envOk with libp2pNew := fun _ => (none, some ⟨"listen failed"⟩) }

/-- A stack that refuses relay registration; no signal ever arrives. -/
def envRelayFails : Env :=
  { envOk with
    relayNewRelay := fun h => (some ⟨"no capability"⟩, h)
    signals := [] }

/-- A stack whose address derivation fails and returns no address. -/
def envDerivationFails : Env :=
  { envOk with
    relayNewRelay := fun h => (none, h)
    addrInfoToP2pAddrs := fun _ => ([], some ⟨"invalid peer id"⟩) }

/-- A stack on which every call succeeds and the only signal to arrive is one
that `main` has not registered for. -/
def envNoSignal : Env :=
  { envOk with signals := [.SIGWINCH] }

/-- A stack whose node construction returns a node bound to no address. -/
def envNoListener : Env :=
  { envOk with libp2pNew := fun _ => (some { id := "12D3KooWA", listenAddrs := [] }, none) }

/-! ## Lemmas on the signal channel -/

/-- A full one-slot buffer is left unchanged by every further relayed signal. -/
theorem foldl_relay_full (sigs incoming buf : List Signal) (h : 1 ≤ buf.length) :
    incoming.foldl (fun buf s => if s ∈ sigs then chanSend 1 buf s else buf) buf = buf := by
  induction incoming with
  | nil => rfl
  | cons s rest ih =>
    have hs : chanSend 1 buf s = buf := by
      unfold chanSend
      rw [if_neg (by omega)]
    simp only [List.foldl_cons, hs, ite_self]
    exact ih

/-- The receive on the one-slot channel yields the first registered signal. -/
theorem chanRecv_signalNotify (sigs incoming : List Signal) :
    chanRecv (signalNotify 1 sigs incoming)
      = incoming.find? fun s => decide (s ∈ sigs) := by
  unfold signalNotify chanRecv
  induction incoming with
  | nil => rfl
  | cons s rest ih =>
    by_cases hs : s ∈ sigs
    · have h1 : chanSend 1 [] s = [s] := by simp [chanSend]
      simp only [List.foldl_cons, hs, if_true, h1]
      rw [foldl_relay_full sigs rest [s] (by simp)]
      simp [List.find?, hs]
    · simp only [List.foldl_cons, hs, if_false]
      rw [ih]
      simp [List.find?, hs]

/-- Signals that arrive after the first registered one do not change it. -/
theorem firstRegistered_append (pre rest : List Signal) (s : Signal)
    (hs : s ∈ registeredSignals) (hpre : ∀ x ∈ pre, x ∉ registeredSignals) :
    firstRegistered (pre ++ s :: rest) = some s := by
  unfold firstRegistered
  induction pre with
  | nil => simp [List.find?, hs]
  | cons x xs ih =>
    have hx : x ∉ registeredSignals := hpre x (by simp)
    have hxs : ∀ y ∈ xs, y ∉ registeredSignals := fun y hy => hpre y (by simp [hy])
    simp only [List.cons_append, List.find?, hx, decide_False]
    exact ih hxs

/-- No registered signal is found exactly when none of the incoming signals is
SIGTERM or SIGINT. -/
theorem firstRegistered_eq_none_iff (incoming : List Signal) :
    firstRegistered incoming = none ↔
      ∀ s ∈ incoming, s ≠ Signal.SIGTERM ∧ s ≠ Signal.SIGINT := by
  simp [firstRegistered, registeredSignals, List.find?_eq_none]

/-- A registered signal is found exactly when one of the incoming signals is
SIGTERM or SIGINT. -/
theorem firstRegistered_isSome_iff (incoming : List Signal) :
    (∃ s, firstRegistered incoming = some s) ↔
      ∃ s ∈ incoming, s = Signal.SIGTERM ∨ s = Signal.SIGINT := by
  constructor
  · rintro ⟨s, hs⟩
    by_contra hne
    have hnone : firstRegistered incoming = none :=
      (firstRegistered_eq_none_iff incoming).2 fun x hx =>
        ⟨fun h1 => hne ⟨x, hx, Or.inl h1⟩, fun h1 => hne ⟨x, hx, Or.inr h1⟩⟩
    rw [hnone] at hs
    cases hs
  · rintro ⟨s, hs, h1⟩
    rcases hf : firstRegistered incoming with _ | t
    · have hno := (firstRegistered_eq_none_iff incoming).1 hf s hs
      rcases h1 with h1 | h1
      · exact absurd h1 hno.1
      · exact absurd h1 hno.2
    · exact ⟨t, rfl⟩

/-! ## The shapes of a run -/

/-- A run in which `createHost` returns an error. -/
theorem main_bootstrap_error (env : Env) (e : GoError)
    (h : (createHost env.libp2pNew).2 = some e) :
    main env = ⟨[.libp2pNew hostOptions], .panicked e⟩ := by
  unfold main
  rcases hc : createHost env.libp2pNew with ⟨r, x⟩
  rw [hc] at h
  simp only at h
  subst h
  cases r <;> rfl

/-- A run in which `createHost` returns a nil host and no error. -/
theorem main_nil_host (env : Env) (h : createHost env.libp2pNew = (none, none)) :
    main env = ⟨[.libp2pNew hostOptions], .panicked nilDereference⟩ := by
  unfold main
  rw [h]

/-- A run in which relay activation fails. -/
theorem main_relay_error (env : Env) (host host1 : Node) (e : GoError)
    (hb : createHost env.libp2pNew = (some host, none))
    (hr : env.relayNewRelay host = (some e, host1)) :
    main env = ⟨[ .libp2pNew hostOptions, .relayNewRelay host,
                  .logPrintf ("Failed to instantiate the relay: " ++ e.msg),
                  .hostClose ], .returned⟩ := by
  unfold main
  rw [hb]
  simp only [hr]

/-- A run that passes relay activation and never receives a registered signal. -/
theorem main_blocked (env : Env) (host host1 : Node)
    (hb : createHost env.libp2pNew = (some host, none))
    (hr : env.relayNewRelay host = (none, host1))
    (hs : firstRegistered env.signals = none) :
    main env = ⟨runningTrace env host host1, .blocked⟩ := by
  unfold firstRegistered at hs
  unfold main
  rw [hb]
  simp only [hr, reportAndWait, chanRecv_signalNotify, hs]
  rfl

/-- A run that passes relay activation and receives a registered signal. -/
theorem main_signal (env : Env) (host host1 : Node) (s : Signal)
    (hb : createHost env.libp2pNew = (some host, none))
    (hr : env.relayNewRelay host = (none, host1))
    (hs : firstRegistered env.signals = some s) :
    main env = ⟨runningTrace env host host1 ++ [.signalReceived s, .hostClose],
                .returned⟩ := by
  unfold firstRegistered at hs
  unfold main
  rw [hb]
  simp only [hr, reportAndWait, chanRecv_signalNotify, hs]
  rfl

/-- Every run of `main` has one of five shapes. -/
theorem main_cases (env : Env) :
    (∃ e, (createHost env.libp2pNew).2 = some e ∧
        main env = ⟨[.libp2pNew hostOptions], .panicked e⟩) ∨
    (createHost env.libp2pNew = (none, none) ∧
        main env = ⟨[.libp2pNew hostOptions], .panicked nilDereference⟩) ∨
    (∃ host host1 e, createHost env.libp2pNew = (some host, none) ∧
        env.relayNewRelay host = (some e, host1) ∧
        main env = ⟨[ .libp2pNew hostOptions, .relayNewRelay host,
                      .logPrintf ("Failed to instantiate the relay: " ++ e.msg),
                      .hostClose ], .returned⟩) ∨
    (∃ host host1, createHost env.libp2pNew = (some host, none) ∧
        env.relayNewRelay host = (none, host1) ∧
        firstRegistered env.signals = none ∧
        main env = ⟨runningTrace env host host1, .blocked⟩) ∨
    (∃ host host1 s, createHost env.libp2pNew = (some host, none) ∧
        env.relayNewRelay host = (none, host1) ∧
        firstRegistered env.signals = some s ∧
        main env = ⟨runningTrace env host host1 ++ [.signalReceived s, .hostClose],
                    .returned⟩) := by
  rcases hc : createHost env.libp2pNew with ⟨_ | host, _ | e⟩
  · exact Or.inr (Or.inl ⟨rfl, main_nil_host env hc⟩)
  · exact Or.inl ⟨e, rfl, main_bootstrap_error env e (by rw [hc])⟩
  · rcases hr : env.relayNewRelay host with ⟨_ | e, host1⟩
    · rcases hs : firstRegistered env.signals with _ | s
      · exact Or.inr (Or.inr (Or.inr (Or.inl
          ⟨host, host1, rfl, hr, rfl, main_blocked env host host1 hc hr hs⟩)))
      · exact Or.inr (Or.inr (Or.inr (Or.inr
          ⟨host, host1, s, rfl, hr, rfl, main_signal env host host1 s hc hr hs⟩)))
    · exact Or.inr (Or.inr (Or.inl
        ⟨host, host1, e, rfl, hr, main_relay_error env host host1 e hc hr⟩))
  · exact Or.inl ⟨e, rfl, main_bootstrap_error env e (by rw [hc])⟩

/-- In a trace that ends with a receive followed by the close, and holds no
other close, every occurrence of the close is the last operation and comes
after the receive. -/
theorem close_is_last (a : List Event) (r : Event) (hx : Event.hostClose ∉ a)
    (hr : r ≠ Event.hostClose) (pre post : List Event)
    (h : a ++ [r, Event.hostClose] = pre ++ Event.hostClose :: post) :
    r ∈ pre ∧ post = [] := by
  induction a generalizing pre with
  | nil =>
    match pre, h with
    | [], h => simp at h; exact absurd h.1 hr
    | [p], h =>
      simp only [List.nil_append, List.cons_append, List.cons.injEq] at h
      obtain ⟨h1, -, h3⟩ := h
      exact ⟨by simp [h1], h3.symm⟩
    | p :: q :: rest, h =>
      simp only [List.nil_append, List.cons_append, List.cons.injEq] at h
      obtain ⟨-, -, h3⟩ := h
      simp at h3
  | cons y ys ih =>
    have hy : y ≠ Event.hostClose := fun hh => hx (by simp [hh])
    have hys : Event.hostClose ∉ ys := fun hh => hx (by simp [hh])
    match pre, h with
    | [], h =>
      simp only [List.cons_append, List.nil_append, List.cons.injEq] at h
      exact absurd h.1 hy
    | p :: rest, h =>
      simp only [List.cons_append, List.cons.injEq] at h
      obtain ⟨-, h2⟩ := h
      obtain ⟨h3, h4⟩ := ih hys rest h2
      exact ⟨by simp [h3], h4⟩

/-- No close occurs before the entry into the signal wait. -/
theorem hostClose_not_mem_runningTrace (env : Env) (host host1 : Node) :
    Event.hostClose ∉ runningTrace env host host1 := by
  simp [runningTrace]

/-! ## Relay activation failure -/

/-- C1, counterexample.  On the stack `envRelayFails` bootstrap yields a live
node and `relay.NewRelay` returns an error, yet the run does not continue as a
plain peer: it is not the case that the address line and the ready prompt are
printed, the signal wait is entered, and the node is closed only after a signal
has been received. -/
theorem relay_failure_does_not_continue :
    createHost envRelayFails.libp2pNew = (some nodeA, none) ∧
    (envRelayFails.relayNewRelay nodeA).1 = some ⟨"no capability"⟩ ∧
    ¬ ((∃ xs, Event.println [.str "p2p addr: ", .addrs xs] ∈ (main envRelayFails).trace) ∧
       Event.println [.str "press Ctrl+C to quit"] ∈ (main envRelayFails).trace ∧
       Event.awaitSignal ∈ (main envRelayFails).trace ∧
       (∀ pre post, (main envRelayFails).trace = pre ++ Event.hostClose :: post →
          ∃ s, Event.signalReceived s ∈ pre)) := by
  refine ⟨by decide, by decide, ?_⟩
  rintro ⟨-, -, h, -⟩
  revert h
  decide

/-- C1, as the code behaves.  When `createHost` returns a live node and
`relay.NewRelay` returns an error, `main` logs the condition, runs the deferred
close of the node and returns, with exit status 0: the failure is no panic, but
the run ends there, with no address line, no ready prompt and no signal wait. -/
theorem relay_failure_ends_run (env : Env) (host host1 : Node) (e : GoError)
    (hb : createHost env.libp2pNew = (some host, none))
    (hr : env.relayNewRelay host = (some e, host1)) :
    main env = ⟨[ .libp2pNew hostOptions, .relayNewRelay host,
                  .logPrintf ("Failed to instantiate the relay: " ++ e.msg),
                  .hostClose ], .returned⟩ ∧
    (main env).outcome.exitStatus = some 0 ∧
    (main env).trace.filter Event.isPrintln = [] ∧
    (main env).trace.filter Event.isNotify = [] ∧
    Event.awaitSignal ∉ (main env).trace := by
  rw [main_relay_error env host host1 e hb hr]
  simp [Outcome.exitStatus, Event.isPrintln, Event.isNotify]

/-- C1, instance of the statement above on the stack `envRelayFails`. -/
theorem relay_failure_ends_run_witness :
    createHost envRelayFails.libp2pNew = (some nodeA, none) ∧
    envRelayFails.relayNewRelay nodeA = (some ⟨"no capability"⟩, nodeA) ∧
    main envRelayFails = ⟨[ .libp2pNew hostOptions, .relayNewRelay nodeA,
        .logPrintf ("Failed to instantiate the relay: " ++ "no capability"),
        .hostClose ], .returned⟩ :=
  ⟨by decide, by decide,
    (relay_failure_ends_run envRelayFails nodeA nodeA ⟨"no capability"⟩
      (by decide) (by decide)).1⟩

/-! ## Bootstrap failure -/

/-- C2.  When `createHost` returns an error `e`, `main` panics with `e`: the
run consists of the call of `libp2p.New` alone, it ends in a panic whose value
is `e`, the exit status is not 0, and the message of `e` is the text
"failed to create host: " followed by the message of the error of the stack.
No relay activation, read of the node, address derivation, print, signal
registration or close is performed. -/
theorem bootstrap_failure_panics (env : Env) (e : GoError)
    (h : (createHost env.libp2pNew).2 = some e) :
    main env = ⟨[.libp2pNew hostOptions], .panicked e⟩ ∧
    (main env).outcome = .panicked e ∧
    (main env).outcome.exitStatus ≠ some 0 ∧
    (∃ e0, (env.libp2pNew hostOptions).2 = some e0 ∧
        e.msg = "failed to create host: " ++ e0.msg) ∧
    (∀ ev ∈ (main env).trace, ev = Event.libp2pNew hostOptions) ∧
    (∀ host, Event.relayNewRelay host ∉ (main env).trace) ∧
    Event.hostID ∉ (main env).trace ∧
    Event.listenAddresses ∉ (main env).trace ∧
    (∀ info, Event.addrInfoToP2pAddrs info ∉ (main env).trace) ∧
    (∀ ops, Event.println ops ∉ (main env).trace) ∧
    (∀ c sigs, Event.signalNotify c sigs ∉ (main env).trace) ∧
    Event.hostClose ∉ (main env).trace := by
  rw [main_bootstrap_error env e h]
  refine ⟨rfl, rfl, by simp [Outcome.exitStatus], ?_, by simp, by simp, by simp, by simp,
    by simp, by simp, by simp, by simp⟩
  unfold createHost at h
  rcases hn : env.libp2pNew hostOptions with ⟨r, _ | e0⟩
  · rw [hn] at h
    simp at h
  · rw [hn] at h
    simp only [Option.some.injEq] at h
    exact ⟨e0, rfl, by rw [← h]; rfl⟩

/-- C2, instance of the statement above on the stack `envBootstrapFails`. -/
theorem bootstrap_failure_panics_witness :
    (createHost envBootstrapFails.libp2pNew).2 = some ⟨"failed to create host: listen failed"⟩ ∧
    main envBootstrapFails
      = ⟨[.libp2pNew hostOptions], .panicked ⟨"failed to create host: listen failed"⟩⟩ :=
  ⟨by decide, (bootstrap_failure_panics envBootstrapFails _ (by decide)).1⟩

/-! ## Stage order -/

/-- C3.  In every run the operations occur in stage order (bootstrap, relay
activator, address reporter, lifecycle controller); the activator runs exactly
when bootstrap produced a live node, the reporter and the controller run
exactly when relay activation succeeded as well; and when bootstrap or relay
activation did not succeed nothing is printed, no signal is registered and the
signal wait is not entered. -/
theorem stage_order_fail_fast (env : Env) :
    ((main env).trace.filterMap stageOf).Pairwise (fun a b => a.rank ≤ b.rank) ∧
    ((main env).trace.filterMap stageOf).head? = some Stage.bootstrap ∧
    (Stage.activator ∈ (main env).trace.filterMap stageOf ↔ bootstrapped env = true) ∧
    (Stage.reporter ∈ (main env).trace.filterMap stageOf ↔ relayActivated env = true) ∧
    (Stage.controller ∈ (main env).trace.filterMap stageOf ↔ relayActivated env = true) ∧
    (relayActivated env = false →
      (main env).trace.filter Event.isPrintln = [] ∧
      (main env).trace.filter Event.isNotify = [] ∧
      Event.awaitSignal ∉ (main env).trace) := by
  rcases main_cases env with ⟨e, hc, hm⟩ | ⟨hc, hm⟩ | ⟨host, host1, e, hc, hr, hm⟩ |
    ⟨host, host1, hc, hr, hs, hm⟩ | ⟨host, host1, s, hc, hr, hs, hm⟩
  · have hb : bootstrapped env = false := by
      unfold bootstrapped
      rcases hx : createHost env.libp2pNew with ⟨_ | r, _ | x⟩ <;> simp_all
    have ha : relayActivated env = false := by
      unfold relayActivated
      rcases hx : createHost env.libp2pNew with ⟨_ | r, _ | x⟩ <;> simp_all
    rw [hm, hb, ha]
    simp [stageOf, Event.isPrintln, Event.isNotify]
  · have hb : bootstrapped env = false := by simp [bootstrapped, hc]
    have ha : relayActivated env = false := by simp [relayActivated, hc]
    rw [hm, hb, ha]
    simp [stageOf, Event.isPrintln, Event.isNotify]
  · have hb : bootstrapped env = true := by simp [bootstrapped, hc]
    have ha : relayActivated env = false := by simp [relayActivated, hc, hr]
    rw [hm, hb, ha]
    simp [stageOf, Event.isPrintln, Event.isNotify, Stage.rank]
  · have hb : bootstrapped env = true := by simp [bootstrapped, hc]
    have ha : relayActivated env = true := by simp [relayActivated, hc, hr]
    rw [hm, hb, ha]
    simp [runningTrace, stageOf, Stage.rank]
  · have hb : bootstrapped env = true := by simp [bootstrapped, hc]
    have ha : relayActivated env = true := by simp [relayActivated, hc, hr]
    rw [hm, hb, ha]
    simp [runningTrace, stageOf, Stage.rank]

/-! ## The contract of `createHost` -/

/-- C4.  `createHost` returns the result of `libp2p.New` unchanged when that
carries no error, and a nil host with the error "failed to create host: "
followed by the message of the stack when it carries one; it never returns a
host together with an error, and returns neither only when the stack did. -/
theorem createHost_contract (libp2pNew : List Libp2pOption → HostResult) :
    (∀ h, libp2pNew hostOptions = (h, none) → createHost libp2pNew = (h, none)) ∧
    (∀ h e, libp2pNew hostOptions = (h, some e) →
        createHost libp2pNew = (none, some ⟨"failed to create host: " ++ e.msg⟩)) ∧
    ¬ ((createHost libp2pNew).1 ≠ none ∧ (createHost libp2pNew).2 ≠ none) ∧
    (createHost libp2pNew = (none, none) → libp2pNew hostOptions = (none, none)) := by
  unfold createHost
  rcases hn : libp2pNew hostOptions with ⟨_ | h, _ | e⟩ <;> simp [Errorf]

/-! ## Listen addresses of the bootstrapped node -/

/-- C5, counterexample.  On a stack whose node construction returns, without
error, a node bound to no address, `createHost` returns that node and no
error. -/
theorem createHost_returns_node_without_listener :
    createHost envNoListener.libp2pNew
      = (some { id := "12D3KooWA", listenAddrs := [] }, none) ∧
    ¬ ((createHost envNoListener.libp2pNew).2 ≠ none ∨
       ∃ h, (createHost envNoListener.libp2pNew).1 = some h ∧ h.listenAddrs ≠ []) := by
  decide

/-- C5, as the code behaves.  `createHost` makes no check of the listen
addresses.  For every outcome of the node construction of the stack it returns
an error exactly when the stack did, and otherwise returns the result of the
stack unchanged; every node it returns is the node the stack constructed; so a
node it returns has a listen address exactly when the node of the stack has
one, and every node it returns has one when every node of the stack has. -/
theorem createHost_listen_addresses (libp2pNew : List Libp2pOption → HostResult) :
    ((createHost libp2pNew).2 ≠ none ↔ (libp2pNew hostOptions).2 ≠ none) ∧
    ((libp2pNew hostOptions).2 = none → createHost libp2pNew = libp2pNew hostOptions) ∧
    ((createHost libp2pNew).2 ≠ none ∨
      ((createHost libp2pNew).2 = none ∧
       (createHost libp2pNew).1 = (libp2pNew hostOptions).1)) ∧
    (∀ h, (createHost libp2pNew).1 = some h → libp2pNew hostOptions = (some h, none)) ∧
    (∀ h, libp2pNew hostOptions = (some h, none) →
      (createHost libp2pNew = (some h, none) ∧
       ((∃ h1, (createHost libp2pNew).1 = some h1 ∧ h1.listenAddrs ≠ []) ↔
          h.listenAddrs ≠ []))) ∧
    ((∀ h, (libp2pNew hostOptions).1 = some h → h.listenAddrs ≠ []) →
      ∀ h, (createHost libp2pNew).1 = some h → h.listenAddrs ≠ []) := by
  unfold createHost
  rcases hn : libp2pNew hostOptions with ⟨_ | r, _ | e⟩ <;> simp

/-- C5, instance of the statement above on the stack `envNoListener`, whose
node is bound to no address, and on the stack `envOk`, whose node is bound to
one. -/
theorem createHost_listen_addresses_witness :
    createHost envNoListener.libp2pNew = envNoListener.libp2pNew hostOptions ∧
    (createHost envOk.libp2pNew = (some nodeA, none) ∧
      ((∃ h1, (createHost envOk.libp2pNew).1 = some h1 ∧ h1.listenAddrs ≠ []) ↔
        nodeA.listenAddrs ≠ [])) :=
  ⟨(createHost_listen_addresses envNoListener.libp2pNew).2.1 (by decide),
   (createHost_listen_addresses envOk.libp2pNew).2.2.2.2.1 nodeA (by decide)⟩

/-! ## Signal-driven shutdown -/

/-- C6.  On a run where bootstrap and relay activation succeed, `main`
registers once, for SIGTERM and SIGINT and nothing else, enters the channel
receive once and completes at most one receive; the node is not closed before a
receive has completed; and when a registered signal arrives, the run receives
the first one, closes the node and returns with exit status 0, whatever
signals follow it. -/
theorem signal_shutdown_single_shot (env : Env) (host host1 : Node)
    (hb : createHost env.libp2pNew = (some host, none))
    (hr : env.relayNewRelay host = (none, host1)) :
    (main env).trace.filter Event.isNotify = [.signalNotify 1 [.SIGTERM, .SIGINT]] ∧
    (main env).trace.count Event.awaitSignal = 1 ∧
    ((main env).trace.filter Event.isReceived).length ≤ 1 ∧
    (∀ pre post, (main env).trace = pre ++ Event.hostClose :: post →
        ∃ s, Event.signalReceived s ∈ pre) ∧
    (∀ pre s rest, env.signals = pre ++ s :: rest →
        (s = Signal.SIGTERM ∨ s = Signal.SIGINT) →
        (∀ x ∈ pre, x ≠ Signal.SIGTERM ∧ x ≠ Signal.SIGINT) →
        main env = ⟨runningTrace env host host1 ++ [.signalReceived s, .hostClose],
                    .returned⟩ ∧
        (main env).outcome.exitStatus = some 0 ∧
        main { env with signals := pre ++ [s] } = main env) := by
  refine ⟨?_, ?_, ?_, ?_, ?_⟩
  · rcases hs : firstRegistered env.signals with _ | s
    · rw [main_blocked env host host1 hb hr hs]
      simp [runningTrace, Event.isNotify]
    · rw [main_signal env host host1 s hb hr hs]
      simp [runningTrace, Event.isNotify]
  · rcases hs : firstRegistered env.signals with _ | s
    · rw [main_blocked env host host1 hb hr hs]
      simp [runningTrace]
    · rw [main_signal env host host1 s hb hr hs]
      simp [runningTrace]
  · rcases hs : firstRegistered env.signals with _ | s
    · rw [main_blocked env host host1 hb hr hs]
      simp [runningTrace, Event.isReceived]
    · rw [main_signal env host host1 s hb hr hs]
      simp [runningTrace, Event.isReceived]
  · intro pre post h
    rcases hs : firstRegistered env.signals with _ | s
    · rw [main_blocked env host host1 hb hr hs] at h
      have hmem : Event.hostClose ∈ runningTrace env host host1 := by
        simp only at h
        rw [h]
        simp
      exact absurd hmem (hostClose_not_mem_runningTrace env host host1)
    · rw [main_signal env host host1 s hb hr hs] at h
      exact ⟨s, (close_is_last _ _ (hostClose_not_mem_runningTrace env host host1)
        (by simp) pre post h).1⟩
  · intro pre s rest hsig hs hpre
    have hreg : s ∈ registeredSignals := by
      rcases hs with h | h <;> simp [registeredSignals, h]
    have hpre1 : ∀ x ∈ pre, x ∉ registeredSignals := by
      intro x hx
      have := hpre x hx
      simp [registeredSignals, this.1, this.2]
    have h1 : firstRegistered env.signals = some s := by
      rw [hsig]
      exact firstRegistered_append pre rest s hreg hpre1
    have h2 : firstRegistered (pre ++ [s]) = some s :=
      firstRegistered_append pre [] s hreg hpre1
    have hm := main_signal env host host1 s hb hr h1
    have hm2 := main_signal { env with signals := pre ++ [s] } host host1 s hb hr h2
    refine ⟨hm, ?_, ?_⟩
    · rw [hm]
      rfl
    · rw [hm, hm2]
      rfl

/-- C6, instance of the statement above on the stack `envOk`, where an
interrupt is followed by a termination request. -/
theorem signal_shutdown_single_shot_witness :
    createHost envOk.libp2pNew = (some nodeA, none) ∧
    envOk.relayNewRelay nodeA = (none, nodeB) ∧
    envOk.signals = [.SIGWINCH] ++ .SIGINT :: [.SIGTERM] ∧
    main envOk = ⟨runningTrace envOk nodeA nodeB ++ [.signalReceived .SIGINT, .hostClose],
                  .returned⟩ ∧
    (main envOk).outcome.exitStatus = some 0 ∧
    main { envOk with signals := [.SIGWINCH] ++ [.SIGINT] } = main envOk :=
  ⟨by decide, by decide, by decide,
    (signal_shutdown_single_shot envOk nodeA nodeB (by decide) (by decide)).2.2.2.2
      [.SIGWINCH] .SIGINT [.SIGTERM] (by decide) (by decide) (by decide)⟩

/-! ## The address report -/

/-- C7, counterexample.  On the stack `envDerivationFails` the node has one
listen address, the run reaches the reporter, and the address line lists no
address: the number of advertised addresses is not the number of listen
addresses. -/
theorem address_line_count_differs :
    createHost envDerivationFails.libp2pNew = (some nodeA, none) ∧
    envDerivationFails.relayNewRelay nodeA = (none, nodeA) ∧
    nodeA.listenAddrs.length = 1 ∧
    (main envDerivationFails).trace.filter Event.isPrintln
      = [ .println [.str "p2p addr: ", .addrs []],
          .println [.str "press Ctrl+C to quit"] ] ∧
    ¬ (([] : List Multiaddr).length = nodeA.listenAddrs.length) := by
  decide

/-- C7, as the code behaves.  On a run that reaches the reporter, `main` reads
the identifier and the listen addresses of the node as it is after relay
activation, passes them as one `AddrInfo` to `peer.AddrInfoToP2pAddrs`, and
prints one address line: "p2p addr: ", a space, and the rendering of the
addresses that call returned.  When that call returns the composition of the
identifier with every listen address, the line lists as many addresses as the
node has listen addresses, and for one listen address exactly its composition
with the identifier. -/
theorem address_line_reads_live_node (env : Env) (host host1 : Node)
    (compose : PeerID → Multiaddr → Multiaddr)
    (hb : createHost env.libp2pNew = (some host, none))
    (hr : env.relayNewRelay host = (none, host1)) :
    (main env).trace.take 5
      = [ .libp2pNew hostOptions, .relayNewRelay host, .hostID, .listenAddresses,
          .addrInfoToP2pAddrs { ID := host1.id, Addrs := host1.listenAddrs } ] ∧
    (main env).trace.filter Event.isPrintln
      = [ .println [.str "p2p addr: ",
            .addrs (env.addrInfoToP2pAddrs { ID := host1.id, Addrs := host1.listenAddrs }).1],
          .println [.str "press Ctrl+C to quit"] ] ∧
    Println [.str "p2p addr: ",
        .addrs (env.addrInfoToP2pAddrs { ID := host1.id, Addrs := host1.listenAddrs }).1]
      = "p2p addr: " ++ " "
          ++ fmtAddrs (env.addrInfoToP2pAddrs { ID := host1.id, Addrs := host1.listenAddrs }).1
          ++ "\n" ∧
    ((env.addrInfoToP2pAddrs { ID := host1.id, Addrs := host1.listenAddrs }).1
        = host1.listenAddrs.map (compose host1.id) →
      (env.addrInfoToP2pAddrs { ID := host1.id, Addrs := host1.listenAddrs }).1.length
        = host1.listenAddrs.length ∧
      ∀ a, host1.listenAddrs = [a] →
        (env.addrInfoToP2pAddrs { ID := host1.id, Addrs := host1.listenAddrs }).1
          = [compose host1.id a]) := by
  refine ⟨?_, ?_, rfl, ?_⟩
  · rcases hs : firstRegistered env.signals with _ | s
    · rw [main_blocked env host host1 hb hr hs]
      rfl
    · rw [main_signal env host host1 s hb hr hs]
      rfl
  · rcases hs : firstRegistered env.signals with _ | s
    · rw [main_blocked env host host1 hb hr hs]
      simp [runningTrace, Event.isPrintln]
    · rw [main_signal env host host1 s hb hr hs]
      simp [runningTrace, Event.isPrintln]
  · intro hc
    rw [hc]
    refine ⟨by simp, ?_⟩
    intro a ha
    rw [ha]
    rfl

/-- C7, instance of the statement above on the stack `envOk`, whose node
gains a second listen address during relay activation. -/
theorem address_line_reads_live_node_witness :
    createHost envOk.libp2pNew = (some nodeA, none) ∧
    envOk.relayNewRelay nodeA = (none, nodeB) ∧
    (main envOk).trace.filter Event.isPrintln
      = [ .println [.str "p2p addr: ",
            .addrs (envOk.addrInfoToP2pAddrs { ID := nodeB.id, Addrs := nodeB.listenAddrs }).1],
          .println [.str "press Ctrl+C to quit"] ] ∧
    (envOk.addrInfoToP2pAddrs { ID := nodeB.id, Addrs := nodeB.listenAddrs }).1
      = [ "/ip4/0.0.0.0/udp/4001/webrtc/p2p/12D3KooWA",
          "/ip4/127.0.0.1/udp/4001/webrtc/p2p/12D3KooWA" ] :=
  ⟨by decide, by decide,
    (address_line_reads_live_node envOk nodeA nodeB encapsulate (by decide) (by decide)).2.1,
    by decide⟩

/-- C8.  On a run where bootstrap and relay activation succeed, whatever
`peer.AddrInfoToP2pAddrs` returns, error included: the address line is printed
with the addresses returned, then the ready prompt, then the signal wait is
entered; nothing is logged; the error is never consulted; and the rest of the
run and the way it ends are the same for every other result of the
derivation. -/
theorem address_derivation_never_escalates (env : Env) (host host1 : Node)
    (derive : AddrInfo → List Multiaddr × Option GoError)
    (hb : createHost env.libp2pNew = (some host, none))
    (hr : env.relayNewRelay host = (none, host1)) :
    (main env).trace.take 9
      = [ .libp2pNew hostOptions, .relayNewRelay host, .hostID, .listenAddresses,
          .addrInfoToP2pAddrs { ID := host1.id, Addrs := host1.listenAddrs },
          .println [.str "p2p addr: ",
            .addrs (env.addrInfoToP2pAddrs { ID := host1.id, Addrs := host1.listenAddrs }).1],
          .println [.str "press Ctrl+C to quit"],
          .signalNotify 1 [.SIGTERM, .SIGINT],
          .awaitSignal ] ∧
    (main env).trace.filter Event.isLog = [] ∧
    (main { env with addrInfoToP2pAddrs := derive }).trace.drop 9 = (main env).trace.drop 9 ∧
    (main { env with addrInfoToP2pAddrs := derive }).outcome = (main env).outcome ∧
    (main { env with addrInfoToP2pAddrs := derive }).outcome.exitStatus
      = (main env).outcome.exitStatus ∧
    ((∀ info, (derive info).1 = (env.addrInfoToP2pAddrs info).1) →
      main { env with addrInfoToP2pAddrs := derive } = main env) := by
  rcases hs : firstRegistered env.signals with _ | s
  · have hm := main_blocked env host host1 hb hr hs
    have hm1 := main_blocked { env with addrInfoToP2pAddrs := derive } host host1 hb hr hs
    rw [hm, hm1]
    refine ⟨rfl, by simp [runningTrace, Event.isLog], rfl, rfl, rfl, ?_⟩
    intro h
    simp [runningTrace, h]
  · have hm := main_signal env host host1 s hb hr hs
    have hm1 := main_signal { env with addrInfoToP2pAddrs := derive } host host1 s hb hr hs
    rw [hm, hm1]
    refine ⟨rfl, by simp [runningTrace, Event.isLog], rfl, rfl, rfl, ?_⟩
    intro h
    simp [runningTrace, h]

/-- C8, instance of the statement above: the stack `envOk` against
a derivation that fails and returns no address. -/
theorem address_derivation_never_escalates_witness :
    createHost envOk.libp2pNew = (some nodeA, none) ∧
    envOk.relayNewRelay nodeA = (none, nodeB) ∧
    (main { envOk with
        addrInfoToP2pAddrs := fun _ => ([], some ⟨"invalid peer id"⟩) }).outcome
      = (main envOk).outcome :=
  ⟨by decide, by decide,
    (address_derivation_never_escalates envOk nodeA nodeB
      (fun _ => ([], some ⟨"invalid peer id"⟩)) (by decide) (by decide)).2.2.2.1⟩

/-! ## The bootstrap configuration -/

/-- C9.  Every run of `main` calls `libp2p.New` once, first, with the same
option list; `createHost` consults the stack at that list only; and the list
holds the WebRTC transport, the single listen pattern
"/ip4/0.0.0.0/udp/0/webrtc", the single multiplexer "/mplex/6.7.0", and the
relay-support option, and nothing else. -/
theorem bootstrap_configuration_constant (env : Env) :
    (main env).trace.head? = some (.libp2pNew hostOptions) ∧
    (main env).trace.filter Event.isNew = [.libp2pNew hostOptions] ∧
    (∀ f g : List Libp2pOption → HostResult,
        f hostOptions = g hostOptions → createHost f = createHost g) ∧
    hostOptions
      = [ .Transport "webrtc.New",
          .ListenAddrStrings ["/ip4/0.0.0.0/udp/0/webrtc"],
          .Muxer "/mplex/6.7.0" "mplex.DefaultTransport",
          .EnableRelay ] ∧
    listenPatterns hostOptions = ["/ip4/0.0.0.0/udp/0/webrtc"] ∧
    listenPatterns hostOptions ≠ [] ∧
    muxerNames hostOptions = ["/mplex/6.7.0"] ∧
    Libp2pOption.EnableRelay ∈ hostOptions ∧
    Libp2pOption.DisableRelay ∉ hostOptions := by
  refine ⟨?_, ?_, ?_, rfl, by decide, by decide, by decide, by decide, by decide⟩
  · rcases main_cases env with ⟨e, -, hm⟩ | ⟨-, hm⟩ | ⟨host, host1, e, -, -, hm⟩ |
      ⟨host, host1, -, -, -, hm⟩ | ⟨host, host1, s, -, -, -, hm⟩ <;> rw [hm] <;> rfl
  · rcases main_cases env with ⟨e, -, hm⟩ | ⟨-, hm⟩ | ⟨host, host1, e, -, -, hm⟩ |
      ⟨host, host1, -, -, -, hm⟩ | ⟨host, host1, s, -, -, -, hm⟩ <;> rw [hm] <;>
      simp [runningTrace, Event.isNew]
  · intro f g h
    unfold createHost
    rw [h]

/-! ## Lifetime of the node -/

/-- C10, counterexample.  On the stack `envNoSignal` bootstrap yields a live
node and no registered signal ever arrives: the run stays blocked in the
receive and the node is not closed. -/
theorem blocked_run_never_closes :
    bootstrapped envNoSignal = true ∧
    (main envNoSignal).outcome = .blocked ∧
    (main envNoSignal).trace.count Event.hostClose = 0 ∧
    ¬ ((main envNoSignal).trace.count Event.hostClose = 1) := by
  decide

/-- C10, as the code behaves.  A run of `main` stays blocked in the receive
exactly when bootstrap and relay activation succeeded and no SIGTERM or SIGINT
ever arrives, and in a blocked run the node is not closed.  In every run that
ends (by return or by panic) the node is closed once if bootstrap produced a
live node and not at all otherwise.  Whenever the node is closed, the close is
the last operation of the run.  Both exits after a successful bootstrap close
the node once: the return after a relay activation error, and the return after
a SIGTERM or SIGINT has arrived. -/
theorem close_discipline (env : Env) :
    ((main env).outcome = .blocked ↔
      (relayActivated env = true ∧
        ∀ s ∈ env.signals, s ≠ Signal.SIGTERM ∧ s ≠ Signal.SIGINT)) ∧
    ((main env).outcome = .blocked → (main env).trace.count Event.hostClose = 0) ∧
    ((main env).outcome ≠ .blocked →
      (main env).trace.count Event.hostClose = if bootstrapped env then 1 else 0) ∧
    (∀ pre post, (main env).trace = pre ++ Event.hostClose :: post → post = []) ∧
    (bootstrapped env = true → relayActivated env = false →
      (main env).outcome = .returned ∧ (main env).trace.count Event.hostClose = 1) ∧
    (relayActivated env = true →
      (∃ s ∈ env.signals, s = Signal.SIGTERM ∨ s = Signal.SIGINT) →
      (main env).outcome = .returned ∧ (main env).trace.count Event.hostClose = 1) := by
  rw [← firstRegistered_eq_none_iff, ← firstRegistered_isSome_iff]
  rcases main_cases env with ⟨e, hc, hm⟩ | ⟨hc, hm⟩ | ⟨host, host1, e, hc, hr, hm⟩ |
    ⟨host, host1, hc, hr, hs, hm⟩ | ⟨host, host1, s, hc, hr, hs, hm⟩
  · have hb : bootstrapped env = false := by
      unfold bootstrapped
      rcases hx : createHost env.libp2pNew with ⟨_ | r, _ | x⟩ <;> simp_all
    have ha : relayActivated env = false := by
      unfold relayActivated
      rcases hx : createHost env.libp2pNew with ⟨_ | r, _ | x⟩ <;> simp_all
    rw [hm, hb, ha]
    refine ⟨by simp, by simp, by simp, ?_, by simp, by simp⟩
    intro pre post h
    have : Event.hostClose ∈ [Event.libp2pNew hostOptions] := by
      simp only at h
      rw [h]
      simp
    simp at this
  · have hb : bootstrapped env = false := by simp [bootstrapped, hc]
    have ha : relayActivated env = false := by simp [relayActivated, hc]
    rw [hm, hb, ha]
    refine ⟨by simp, by simp, by simp, ?_, by simp, by simp⟩
    intro pre post h
    have : Event.hostClose ∈ [Event.libp2pNew hostOptions] := by
      simp only at h
      rw [h]
      simp
    simp at this
  · have hb : bootstrapped env = true := by simp [bootstrapped, hc]
    have ha : relayActivated env = false := by simp [relayActivated, hc, hr]
    rw [hm, hb, ha]
    refine ⟨by simp, by simp, by simp, ?_, by simp, by simp⟩
    intro pre post h
    exact (close_is_last [Event.libp2pNew hostOptions, Event.relayNewRelay host]
      (Event.logPrintf ("Failed to instantiate the relay: " ++ e.msg))
      (by simp) (by simp) pre post h).2
  · have hb : bootstrapped env = true := by simp [bootstrapped, hc]
    have ha : relayActivated env = true := by simp [relayActivated, hc, hr]
    rw [hm, hb, ha, hs]
    refine ⟨by simp, by simp [runningTrace], by simp, ?_, by simp, by simp⟩
    intro pre post h
    have hmem : Event.hostClose ∈ runningTrace env host host1 := by
      simp only at h
      rw [h]
      simp
    exact absurd hmem (hostClose_not_mem_runningTrace env host host1)
  · have hb : bootstrapped env = true := by simp [bootstrapped, hc]
    have ha : relayActivated env = true := by simp [relayActivated, hc, hr]
    rw [hm, hb, ha, hs]
    refine ⟨by simp, by simp, by simp [runningTrace], ?_, by simp, by simp [runningTrace]⟩
    intro pre post h
    exact (close_is_last _ _ (hostClose_not_mem_runningTrace env host host1)
      (by simp) pre post h).2

end Libp2pServer
